import Mathlib

/-!
Verification of the CyberPower OS login-handshake driver
(`netmiko/cyberpower/cyberpower_os.py`).

The development shallowly embeds the four components of the driver:

* `process_option` — the telnet option-negotiation responder
  (`CyberPowerOSTelnet._process_option`);
* `command_echo_read` — the echo normalizer
  (`CyberPowerOSTelnet.command_echo_read`);
* `tStep` / `tInner` / `tOuter` / `telnet_login` — the telnet-style
  retry-round login automaton (`CyberPowerOSTelnet._telnet_login`);
* `pollAux` / `special_login_handler` — the SSH-style idle-backoff
  poller (`CyberPowerOSBase.special_login_handler`).

The channel is modelled as the list of results successive `read_channel()`
calls return (an exhausted list reads as the empty string, a non-blocking
read with nothing buffered).  Writes, sleeps and the connection close are
recorded as explicit events so theorems can speak about what was sent and
in what order.  Regular-expression searches (`re.search(pattern, out, re.I)`
and the multiline prompt-terminator searches) are modelled as caller-supplied
Boolean matchers on the chunk, which is exactly how `_telnet_login` is
parametric in its pattern arguments; the default literal patterns
"Login Name" / "Login Password" with `re.I` are instantiated as
case-insensitive substring tests where concrete runs are evaluated.
-/

/-- `lpfx needle hay`: `hay` starts with `needle` (structural, so the kernel
can evaluate it on concrete inputs). -/
def lpfx : List Char → List Char → Bool
  | [], _ => true
  | _ :: _, [] => false
  | c :: cs, d :: ds => c == d && lpfx cs ds

/-- `loccurs needle hay`: `needle` occurs as a contiguous sublist of `hay`
(the empty needle occurs everywhere). -/
def loccurs (needle : List Char) : List Char → Bool
  | [] => needle.isEmpty
  | c :: cs => lpfx needle (c :: cs) || loccurs needle cs

/-- `containsStr hay needle`: Python's `needle in hay` substring test. -/
def containsStr (hay needle : String) : Bool :=
  loccurs needle.toList hay.toList

/-- Case-insensitive substring test: `re.search(needle, hay, flags=re.I)` for
a literal (metacharacter-free) pattern `needle`. -/
def containsCI (hay needle : String) : Bool :=
  loccurs (needle.toList.map Char.toLower) (hay.toList.map Char.toLower)

/-- Worker for `pySplit`: split `hay` on the non-empty separator `sep`,
left to right, `acc` holding the (reversed) characters of the piece being
built.  The structural `fuel`, initialized to more than `hay.length`, is
never the binding constraint: every recursive call shortens `hay`. -/
def splitGo (sep : List Char) : Nat → List Char → List Char → List (List Char)
  | 0, rest, acc => [acc.reverse ++ rest]
  | fuel + 1, hay, acc =>
    if lpfx sep hay && !sep.isEmpty then
      acc.reverse :: splitGo sep fuel (hay.drop sep.length) []
    else
      match hay with
      | [] => [acc.reverse]
      | c :: cs => splitGo sep fuel cs (c :: acc)

/-- Python's `s.split(sep)` for a non-empty literal separator: the pieces of
`s` between consecutive occurrences of `sep` (adjacent occurrences and
occurrences at either end yield empty pieces).  Python raises `ValueError`
on an empty separator; here that out-of-domain case returns `[s]`. -/
def pySplit (s sep : String) : List String :=
  (splitGo sep.toList (s.toList.length + 1) s.toList []).map String.mk

/-! ## Option Negotiation Responder (`CyberPowerOSTelnet._process_option`)

Byte values are the `telnetlib` constants. -/

namespace Telnet

def IAC : Nat := 255
def DONT : Nat := 254
def DO : Nat := 253
def WONT : Nat := 252
def WILL : Nat := 251
def ECHO : Nat := 1

/-- `CyberPowerOSTelnet._process_option`: given the incoming `(command,
option)` byte pair, the list of `sendall` calls made (each one a byte
sequence).  Mirrors the source's `if option == ECHO / elif command in
(DO, DONT) / elif command in (WILL, WONT)` chain; any other pair falls
through with no write. -/
def process_option (command option : Nat) : List (List Nat) :=
  if option = ECHO then [[IAC, DO, ECHO]]
  else if command = DO ∨ command = DONT then [[IAC, WONT, option]]
  else if command = WILL ∨ command = WONT then [[IAC, DONT, option]]
  else []

/-- Modelled from the spec: the fixed policy table of §4.1 — "echo" gets the
affirmative `IAC DO ECHO`, any other option gets `IAC WONT option` for a
DO/DONT request and `IAC DONT option` for a WILL/WONT notice. -/
def policy_reply (command option : Nat) : List Nat :=
  if option = ECHO then [IAC, DO, ECHO]
  else if command = DO ∨ command = DONT then [IAC, WONT, option]
  else [IAC, DONT, option]

end Telnet

/-! ## Echo Normalizer (`CyberPowerOSTelnet.command_echo_read`)

The method reads the channel and post-processes the text; here the raw text
just read and the active prompt-terminator pattern (`self._prompt_handler(True)`,
a plain string that `str.split` is called with) are parameters. -/

/-- `CyberPowerOSTelnet.command_echo_read`, the pure post-processing part:
split the raw output on the prompt pattern (`new_data.split(search_pattern)`);
when that yields exactly two pieces, rebuild as `cmd` followed by the
trailing piece (`f"{cmd}{lines[-1]}"`); otherwise keep the output
unchanged. -/
def command_echo_read (cmd search_pattern new_data : String) : String :=
  let lines := pySplit new_data search_pattern
  if lines.length = 2 then cmd ++ lines.getLastD "" else new_data

/-! ## Telnet-style login automaton (`CyberPowerOSTelnet._telnet_login`) -/

/-- One result of a `read_channel()` call on the telnet transport: a decoded
text chunk, or the `EOFError` the underlying `telnetlib` read raises once the
stream is closed. -/
inductive RR where
  | chunk (s : String)
  | eof
deriving DecidableEq

/-- Pop the next read result off the channel script; an exhausted script
reads as the empty chunk (non-blocking read with nothing buffered). -/
def popR : List RR → RR × List RR
  | [] => (RR.chunk "", [])
  | r :: rs => (r, rs)

/-- Observable side effects of the automaton.  `tsleep n` records a
`time.sleep` whose duration is `n` half-seconds scaled by the delay factor
(so `time.sleep(2 * delay_factor)` is `tsleep 4`, `time.sleep(0.5 *
delay_factor)` is `tsleep 1`); `twrite s` is `write_channel(s)`; `tclose`
is `remote_conn.close()`. -/
inductive TEvent where
  | twrite (s : String)
  | tsleep (halves : Nat)
  | tclose
deriving DecidableEq

/-- Configuration of one `_telnet_login` call: the credentials and host of
the session object, `self.TELNET_RETURN`, the four pattern searches
(`re.search(username_pattern, ·, re.I)`, `re.search(pwd_pattern, ·, re.I)`,
and the two multiline prompt-terminator searches) as Boolean matchers on a
chunk, and the `max_loops` argument. -/
structure TCfg where
  username : String
  password : String
  host : String
  telnetReturn : String
  matchU : String → Bool
  matchP : String → Bool
  matchPri : String → Bool
  matchAlt : String → Bool
  maxLoops : Nat

/-- Mutable state threaded through the automaton: the remaining channel
script and the accumulated `return_msg` transcript. -/
structure TSt where
  reads : List RR
  msg : String
deriving DecidableEq

/-- Outcome of one body of the inner `while` loop. -/
inductive StepRes where
  | success
  | eofStop
  | next
deriving DecidableEq

/-- Outcome of one `_telnet_login` call: the transcript on success, the
`NetmikoAuthenticationException` message on failure, or an uncaught
`EOFError` (possible only at the final last-ditch read, which the `try`
block does not cover). -/
inductive TResult where
  | ok (transcript : String)
  | authErr (msg : String)
  | eofErr
deriving DecidableEq

/-- Tail of one inner step, from the `re.search(pwd_pattern, output, ...)`
test on: `o` is the current `output` variable, `ev` the events already
produced by this step.  If the password pattern matches, write
`password + "\r"`, sleep `3 * delay_factor`, read again and append. -/
def tStepPwd (c : TCfg) (st : TSt) (o : String) (ev : List TEvent) :
    StepRes × TSt × List TEvent :=
  if c.matchP o then
    let ev2 := ev ++ [TEvent.twrite (c.password ++ "\r"), TEvent.tsleep 6]
    match popR st.reads with
    | (RR.eof, r2) => (StepRes.eofStop, ⟨r2, st.msg⟩, ev2)
    | (RR.chunk o2, r2) =>
      let st2 : TSt := ⟨r2, st.msg ++ o2⟩
      if c.matchPri o2 || c.matchAlt o2 then (StepRes.success, st2, ev2)
      else (StepRes.next, st2, ev2)
  else
    if c.matchPri o || c.matchAlt o then (StepRes.success, st, ev)
    else (StepRes.next, st, ev)

/-- One body of the inner `while i <= inner_loops` loop of `_telnet_login`
(the `try` block): read and append; if the username pattern matches, write
`username + "\r"`, sleep, read and append again; then the password test and
the prompt-terminator success test.  An `EOFError` on any of the reads
surfaces as `StepRes.eofStop`. -/
def tStep (c : TCfg) (st : TSt) : StepRes × TSt × List TEvent :=
  match popR st.reads with
  | (RR.eof, r0) => (StepRes.eofStop, ⟨r0, st.msg⟩, [])
  | (RR.chunk o0, r0) =>
    let st0 : TSt := ⟨r0, st.msg ++ o0⟩
    if c.matchU o0 then
      let ev := [TEvent.twrite (c.username ++ "\r"), TEvent.tsleep 2]
      match popR st0.reads with
      | (RR.eof, r1) => (StepRes.eofStop, ⟨r1, st0.msg⟩, ev)
      | (RR.chunk o1, r1) => tStepPwd c ⟨r1, st0.msg ++ o1⟩ o1 ev
    else
      tStepPwd c st0 o0 []

/-- Outcome of one round's inner loop. -/
inductive LoopRes where
  | success
  | eofStop
  | exhausted
deriving DecidableEq

/-- The inner `while i <= inner_loops` loop: `fuel` is the number of
attempts the counter `i` still allows in this round.  Returns the outcome,
the final state, the events of the whole loop, and the number of read/react
step bodies entered. -/
def tInner (c : TCfg) (fuel : Nat) (st : TSt) :
    LoopRes × TSt × List TEvent × Nat :=
  match fuel with
  | 0 => (LoopRes.exhausted, st, [], 0)
  | fuel + 1 =>
    match tStep c st with
    | (StepRes.success, st1, ev) => (LoopRes.success, st1, ev, 1)
    | (StepRes.eofStop, st1, ev) => (LoopRes.eofStop, st1, ev, 1)
    | (StepRes.next, st1, ev) =>
      let (res, st2, ev2, s) := tInner c fuel st1
      (res, st2, ev ++ ev2, s + 1)

/-- The final "last try to see if we already logged in" tail of
`_telnet_login`: write `TELNET_RETURN`, sleep `0.5 * delay_factor`, read
once and append; return the transcript if either prompt terminator matches
that read, otherwise close the connection and raise
`NetmikoAuthenticationException(f"Login failed: {host}")`.  An `EOFError`
at this read is outside the `try` block and propagates uncaught. -/
def tLast (c : TCfg) (st : TSt) : TResult × TSt × List TEvent × Nat :=
  let ev0 := [TEvent.twrite c.telnetReturn, TEvent.tsleep 1]
  match popR st.reads with
  | (RR.eof, r0) => (TResult.eofErr, ⟨r0, st.msg⟩, ev0, 0)
  | (RR.chunk o, r0) =>
    let st1 : TSt := ⟨r0, st.msg ++ o⟩
    if c.matchPri o || c.matchAlt o then (TResult.ok st1.msg, st1, ev0, 0)
    else
      (TResult.authErr ("Login failed: " ++ c.host), st1,
        ev0 ++ [TEvent.tclose], 0)

/-- The outer `for _ in range(outer_loops)` loop of `_telnet_login`, with
`rounds` rounds left.  Each round runs the inner loop with a fresh
`inner_loops = int(max_loops / outer_loops)` budget; success returns the
transcript, an `EOFError` closes the connection and raises
`NetmikoAuthenticationException(f"Login failed: {host}")`, and an exhausted
round sleeps `1 * delay_factor` (the `write_channel(TELNET_RETURN)` at that
point is commented out in the source) and re-enters with the counter reset.
After the last round control falls through to `tLast`.  The final `Nat` is
the total number of inner step bodies entered before the last-ditch check. -/
def tOuter (c : TCfg) (rounds : Nat) (st : TSt) :
    TResult × TSt × List TEvent × Nat :=
  match rounds with
  | 0 => tLast c st
  | rounds + 1 =>
    match tInner c (c.maxLoops / 3) st with
    | (LoopRes.success, st1, ev, s) => (TResult.ok st1.msg, st1, ev, s)
    | (LoopRes.eofStop, st1, ev, s) =>
      (TResult.authErr ("Login failed: " ++ c.host), st1,
        ev ++ [TEvent.tclose], s)
    | (LoopRes.exhausted, st1, ev, s) =>
      let (res, st2, ev2, s2) := tOuter c rounds st1
      (res, st2, ev ++ TEvent.tsleep 2 :: ev2, s + s2)

/-- `CyberPowerOSTelnet._telnet_login` on a channel script: initial
`time.sleep(2 * delay_factor)`, then `outer_loops = 3` rounds, then the
last-ditch check. -/
def telnet_login (c : TCfg) (reads : List RR) :
    TResult × TSt × List TEvent × Nat :=
  let (res, st, ev, s) := tOuter c 3 ⟨reads, ""⟩
  (res, st, TEvent.tsleep 4 :: ev, s)

/-- `true` exactly on channel-write events. -/
def isWrite : TEvent → Bool
  | TEvent.twrite _ => true
  | _ => false

/-! ## SSH-style idle-backoff poller (`CyberPowerOSBase.special_login_handler`)

Time is counted in tenths of a second: the loop runs
`while time.time() - start < login_timeout` with `login_timeout = 20`
seconds, i.e. while `elapsed < 200` tenths; `time.sleep(0.1)` advances
`elapsed` by `1`, `time.sleep(0.5)` by `5`, and reads/writes are
instantaneous.  The channel is the list of strings successive
`read_channel()` calls return (exhausted list reads as `""`). -/

/-- Observable events of the poller: `prRead s` is a `read_channel()`
returning `s`, `pwUser s` the `write_channel(username + RETURN)` (with
`s` the full written text), `pwPass s` the `write_channel(password +
RETURN)`, `pwRet s` the bare `write_channel(RETURN)`, and `psleep n` a
sleep of `n` tenths of a second. -/
inductive PEvent where
  | prRead (s : String)
  | pwUser (s : String)
  | pwPass (s : String)
  | pwRet (s : String)
  | psleep (tenths : Nat)
deriving DecidableEq

/-- Outcome of the poller: `sent` when the loop exited via `break` after
writing the password, `timeout msg` when the wall-clock budget ran out and
`NetmikoTimeoutException(msg)` was raised, and `fuelOut` an artifact of the
bounded model (unreachable from `special_login_handler`, whose iteration
budget of 200 dominates the at-most-200 iterations the time check allows,
each iteration sleeping at least one tenth). -/
inductive PResult where
  | sent
  | timeout (msg : String)
  | fuelOut
deriving DecidableEq

/-- The message of the `NetmikoTimeoutException` raised on budget
exhaustion — the source assigns a plain (non-f) triple-quoted string, so
the text `{login_timeout}` is literal and the configured 20-second budget
never reaches the message. -/
def login_timeout_msg : String :=
  "\nLogin process failed to CyberPower OS device. Unable to login in {login_timeout} seconds.\n"

/-- Pop the next chunk off the poller's channel script; an exhausted script
reads as `""`. -/
def popS : List String → String × List String
  | [] => ("", [])
  | r :: rs => (r, rs)

/-- `output = self.read_channel() if not new_data else new_data`: when the
previous iteration left buffered text, consume it without reading; otherwise
perform a fresh read (recorded as an event). -/
def pollRead (reads : List String) (newData : String) :
    String × List String × List PEvent :=
  if newData = "" then
    let (o, rs) := popS reads
    (o, rs, [PEvent.prRead o])
  else (newData, reads, [])

/-- The `while time.time() - start < login_timeout` loop of
`special_login_handler`, one constructor call per iteration.  `elapsed` is
the time consumed so far in tenths of a second; `newData` is the loop-carried
buffered text; `fuel` bounds the iteration count (200 suffices, see
`PResult.fuelOut`).  Per the source: non-empty output containing
`"Login Name:"` writes the username and sleeps `0.1`; otherwise (`elif`)
output containing `"Login Password:"` writes the password and breaks;
any other non-empty output just sleeps `0.1`; empty output sleeps `0.5`,
reads again into `new_data`, and writes a bare `RETURN` when that read is
also empty. -/
def pollAux (username password ret : String) :
    List String → String → Nat → Nat → PResult × List PEvent
  | _, _, _, 0 => (PResult.fuelOut, [])
  | reads, newData, elapsed, fuel + 1 =>
    if elapsed < 200 then
      let (output, reads1, readEv) := pollRead reads newData
      if output = "" then
        let (nd, reads2) := popS reads1
        let retEv := if nd = "" then [PEvent.pwRet ret] else []
        let r := pollAux username password ret reads2 nd (elapsed + 5) fuel
        (r.1, (readEv ++ PEvent.psleep 5 :: PEvent.prRead nd :: retEv) ++ r.2)
      else if containsStr output "Login Name:" then
        let r := pollAux username password ret reads1 "" (elapsed + 1) fuel
        (r.1, (readEv ++ [PEvent.pwUser (username ++ ret), PEvent.psleep 1]) ++ r.2)
      else if containsStr output "Login Password:" then
        (PResult.sent, readEv ++ [PEvent.pwPass (password ++ ret)])
      else
        let r := pollAux username password ret reads1 "" (elapsed + 1) fuel
        (r.1, (readEv ++ [PEvent.psleep 1]) ++ r.2)
    else (PResult.timeout login_timeout_msg, [])

/-- `CyberPowerOSBase.special_login_handler` on a channel script: after the
initial `time.sleep(0.1)` the clock starts at zero; the loop then runs
inside the 20-second (200-tenths) budget.  The iteration fuel 200 is never
the binding constraint. -/
def special_login_handler (username password ret : String)
    (reads : List String) : PResult × List PEvent :=
  pollAux username password ret reads "" 0 200

/-- `true` exactly on password-write events of the poller. -/
def isPassWrite : PEvent → Bool
  | PEvent.pwPass _ => true
  | _ => false

/-- `true` exactly on username-write events of the poller. -/
def isUserWrite : PEvent → Bool
  | PEvent.pwUser _ => true
  | _ => false

/-! ## Concrete instances used by witnesses and counterexamples -/

/-- A `_telnet_login` configuration with the source's default patterns
(`"Login Name"` / `"Login Password"` with `re.I` as case-insensitive
substring tests, and prompt terminators that fire on `#` / `>`), the
default `max_loops = 20`, and `TELNET_RETURN = "\r\n"`. -/
def cfgDefault : TCfg :=
  { username := "admin", password := "hunter2", host := "pdu1",
    telnetReturn := "\r\n",
    matchU := fun s => containsCI s "Login Name",
    matchP := fun s => containsCI s "Login Password",
    matchPri := fun s => containsStr s "#",
    matchAlt := fun s => containsStr s ">",
    maxLoops := 20 }

/-- A configuration whose four patterns never match any chunk (a device
that only emits unrecognized noise). -/
def cfgNoMatch : TCfg :=
  { username := "admin", password := "hunter2", host := "pdu1",
    telnetReturn := "\r\n",
    matchU := fun _ => false, matchP := fun _ => false,
    matchPri := fun _ => false, matchAlt := fun _ => false,
    maxLoops := 20 }

/-! ## Claims -/

/-- Claim C4 (confirmed): for every raw output text and every sent command,
splitting the output on the active prompt-terminator pattern (a non-empty
separator, as `str.split` requires) yields either exactly two segments, in
which case `command_echo_read` returns the command concatenated with the
trailing segment, or any other segment count, in which case it returns the
output unchanged. -/
theorem c4_echo_normalizer (cmd pat out : String) (_hpat : pat ≠ "") :
    ((pySplit out pat).length = 2 →
      command_echo_read cmd pat out = cmd ++ (pySplit out pat).getLastD "") ∧
    ((pySplit out pat).length ≠ 2 → command_echo_read cmd pat out = out) := by
  unfold command_echo_read
  exact ⟨fun h => by simp [h], fun h => by simp [h]⟩

/-- Witness for C4 at a concrete echoed-prompt output. -/
theorem c4_witness :
    command_echo_read "show" "@" "a@b" = "show" ++ (pySplit "a@b" "@").getLastD "" :=
  (c4_echo_normalizer "show" "@" "a@b" (by decide)).1 (by decide)

/-- Counterexample for C7: the claim states that any `(command, option)`
pair outside the vocabulary of commands DO, DONT, WILL, WONT produces no
write, but the source tests `option == ECHO` first, so command `250`
(`SB`, outside that vocabulary) with option `ECHO` still elicits the
`IAC DO ECHO` write. -/
theorem c7_counterexample :
    ¬ (250 = Telnet.DO ∨ 250 = Telnet.DONT ∨ 250 = Telnet.WILL ∨
       250 = Telnet.WONT) ∧
    Telnet.process_option 250 Telnet.ECHO ≠ [] := by decide

/-- Claim C7 (corrected): for every `(command, option)` pair, the responder
writes exactly one reply from the fixed policy table whenever the command
is in the DO/DONT/WILL/WONT vocabulary or the option is ECHO (option ECHO
always gets `IAC DO ECHO`, even for commands outside the vocabulary); any
other pair produces no write; and no pair ever produces more than one
write. -/
theorem c7_negotiation_policy (command option : Nat) :
    ((command = Telnet.DO ∨ command = Telnet.DONT ∨ command = Telnet.WILL ∨
        command = Telnet.WONT ∨ option = Telnet.ECHO) →
      Telnet.process_option command option = [Telnet.policy_reply command option]) ∧
    (¬ (command = Telnet.DO ∨ command = Telnet.DONT ∨ command = Telnet.WILL ∨
        command = Telnet.WONT ∨ option = Telnet.ECHO) →
      Telnet.process_option command option = []) ∧
    (Telnet.process_option command option).length ≤ 1 := by
  simp only [Telnet.process_option, Telnet.policy_reply, Telnet.DO,
    Telnet.DONT, Telnet.WILL, Telnet.WONT, Telnet.ECHO, Telnet.IAC]
  by_cases h1 : option = 1
  · simp [h1]
  · by_cases h2 : command = 253 ∨ command = 254
    · simp [h1, h2]
      tauto
    · by_cases h3 : command = 251 ∨ command = 252
      · simp [h1, h2, h3]
      · simp [h1, h2, h3]

/-- Witness for C7 at the in-vocabulary pair `(DO, 5)`. -/
theorem c7_witness :
    Telnet.process_option Telnet.DO 5 = [Telnet.policy_reply Telnet.DO 5] :=
  (c7_negotiation_policy Telnet.DO 5).1 (by decide)

/-- Claim C2 (code_bug): on a channel that never produces output the poller
exhausts the 20-second budget and raises `NetmikoTimeoutException`, but the
source builds the message as a plain (non-f) string, so the message carries
the literal text between braces and never the configured budget value 20. -/
theorem c2_timeout_message_literal :
    (special_login_handler "admin" "hunter2" "\r" []).1
      = PResult.timeout login_timeout_msg ∧
    containsStr login_timeout_msg "20" = false ∧
    containsStr login_timeout_msg "login_timeout" = true := by decide

/-- The events of an inner step's tail depend only on whether the password
pattern matched the current output: the password write and its sleep, or
nothing. -/
theorem tStepPwd_events (c : TCfg) (st : TSt) (o : String) (ev : List TEvent) :
    (tStepPwd c st o ev).2.2 =
      ev ++ (if c.matchP o then
        [TEvent.twrite (c.password ++ "\r"), TEvent.tsleep 6] else []) := by
  unfold tStepPwd
  by_cases h : c.matchP o
  · rcases h2 : popR st.reads with ⟨r, rs⟩
    cases r <;> (simp [h, h2]; try (split <;> simp))
  · simp [h]
    split <;> simp

/-- Counterexample for C1: with the source's default patterns, a first chunk
containing both "Login Name" and "Login Password" followed by an empty
follow-up read makes the automaton write the username but never the
password — the password search runs against the refreshed read, not the
chunk that triggered the username match. -/
theorem c1_counterexample :
    cfgDefault.matchU "Login Name: Login Password:" = true ∧
    cfgDefault.matchP "Login Name: Login Password:" = true ∧
    TEvent.twrite (cfgDefault.username ++ "\r") ∈
      (telnet_login cfgDefault [RR.chunk "Login Name: Login Password:"]).2.2.1 ∧
    TEvent.twrite (cfgDefault.password ++ "\r") ∉
      (telnet_login cfgDefault [RR.chunk "Login Name: Login Password:"]).2.2.1 := by
  decide

/-- Claim C1 (corrected): in one inner step, when the chunk read at the
start of the step matches the username pattern and the refreshed output
read after the username write matches the password pattern, the automaton
writes both the username and the password within that same step, in
username-then-password order.  (As stated the claim fails: the password
search runs on the refreshed read, not on the original chunk — see the
counterexample.) -/
theorem c1_both_writes_same_step (c : TCfg) (o0 o1 : String) (rest : List RR)
    (msg : String) (hU : c.matchU o0 = true) (hP : c.matchP o1 = true) :
    (tStep c ⟨RR.chunk o0 :: RR.chunk o1 :: rest, msg⟩).2.2 =
      [TEvent.twrite (c.username ++ "\r"), TEvent.tsleep 2,
       TEvent.twrite (c.password ++ "\r"), TEvent.tsleep 6] := by
  unfold tStep popR
  simp [hU, tStepPwd_events, hP]

/-- Witness for C1's amended statement at a concrete two-chunk exchange. -/
theorem c1_witness :
    (tStep cfgDefault
        ⟨[RR.chunk "Login Name:", RR.chunk "Login Password:"], ""⟩).2.2 =
      [TEvent.twrite (cfgDefault.username ++ "\r"), TEvent.tsleep 2,
       TEvent.twrite (cfgDefault.password ++ "\r"), TEvent.tsleep 6] :=
  c1_both_writes_same_step cfgDefault "Login Name:" "Login Password:" [] ""
    (by decide) (by decide)

/-- Counterexample for C3: a run in which every round's inner attempts are
exhausted (no pattern ever matches, 18 = 3 × 6 steps are consumed), yet the
only write in the whole trace is the single last-ditch `TELNET_RETURN`; no
bare line-terminator is sent between rounds — the source has that
`write_channel` commented out and only sleeps. -/
theorem c3_counterexample :
    telnet_login cfgNoMatch [] =
      (TResult.authErr "Login failed: pdu1", ⟨[], ""⟩,
        [TEvent.tsleep 4, TEvent.tsleep 2, TEvent.tsleep 2, TEvent.tsleep 2,
         TEvent.twrite "\r\n", TEvent.tsleep 1, TEvent.tclose], 18) ∧
    List.filter isWrite (telnet_login cfgNoMatch []).2.2.1 =
      [TEvent.twrite "\r\n"] := by
  decide

/-- Claim C3 (corrected): whenever the inner attempts of an outer round are
exhausted without success, the automaton only sleeps a scaled delay and
resets the inner counter before starting the next round; the single event
inserted between the exhausted round's events and the next round's events
is `tsleep`, not a line-terminator write (that send is commented out in the
source). -/
theorem c3_between_rounds_only_sleeps (c : TCfg) (st st1 : TSt)
    (ev : List TEvent) (s rounds : Nat)
    (h : tInner c (c.maxLoops / 3) st = (LoopRes.exhausted, st1, ev, s)) :
    tOuter c (rounds + 1) st =
      ((tOuter c rounds st1).1, (tOuter c rounds st1).2.1,
        ev ++ TEvent.tsleep 2 :: (tOuter c rounds st1).2.2.1,
        s + (tOuter c rounds st1).2.2.2) := by
  conv_lhs => rw [tOuter]
  rw [h]

/-- Witness for C3's amended statement: first round exhausted on an
all-noise channel, second round entered after nothing but a sleep. -/
theorem c3_witness :
    tOuter cfgNoMatch 3 ⟨[], ""⟩ =
      ((tOuter cfgNoMatch 2 ⟨[], ""⟩).1, (tOuter cfgNoMatch 2 ⟨[], ""⟩).2.1,
        [] ++ TEvent.tsleep 2 :: (tOuter cfgNoMatch 2 ⟨[], ""⟩).2.2.1,
        6 + (tOuter cfgNoMatch 2 ⟨[], ""⟩).2.2.2) :=
  c3_between_rounds_only_sleeps cfgNoMatch ⟨[], ""⟩ ⟨[], ""⟩ [] 6 2 (by decide)

/-- Claim C6 (confirmed): when a stream-closed condition (`EOFError`)
surfaces during a round's read steps, the automaton immediately returns the
authentication error naming the target host with the connection-close as
the final event — the remaining outer rounds are abandoned (the result does
not depend on `rounds`) and nothing is read or written afterwards. -/
theorem c6_eof_closes_and_raises (c : TCfg) (st st1 : TSt)
    (ev : List TEvent) (s rounds : Nat)
    (h : tInner c (c.maxLoops / 3) st = (LoopRes.eofStop, st1, ev, s)) :
    tOuter c (rounds + 1) st =
      (TResult.authErr ("Login failed: " ++ c.host), st1,
        ev ++ [TEvent.tclose], s) := by
  unfold tOuter
  rw [h]

/-- Witness for C6: the channel closes on the very first read. -/
theorem c6_witness :
    tOuter cfgDefault 3 ⟨[RR.eof], ""⟩ =
      (TResult.authErr ("Login failed: " ++ cfgDefault.host), ⟨[], ""⟩,
        [TEvent.tclose], 1) := by
  simpa using
    c6_eof_closes_and_raises cfgDefault ⟨[RR.eof], ""⟩ ⟨[], ""⟩ [] 1 2
      (by decide)

/-- Claim C8 (confirmed): after all outer rounds are exhausted, the
automaton performs exactly one additional check — it writes the
line-terminator, sleeps the fixed short delay, performs a single further
read (consuming exactly one chunk, leaving the rest of the channel
untouched), appends that read to the transcript — and returns the
transcript when either terminator pattern matches that final read;
otherwise it closes the connection and returns the authentication error
naming the host.  (Stated for a final read that yields a chunk; a stream
already at EOF has no final text to test.) -/
theorem c8_last_ditch (c : TCfg) (st : TSt) (o : String) (r0 : List RR)
    (h : popR st.reads = (RR.chunk o, r0)) :
    tOuter c 0 st =
      (if c.matchPri o || c.matchAlt o then TResult.ok (st.msg ++ o)
         else TResult.authErr ("Login failed: " ++ c.host),
       ⟨r0, st.msg ++ o⟩,
       [TEvent.twrite c.telnetReturn, TEvent.tsleep 1] ++
         (if c.matchPri o || c.matchAlt o then [] else [TEvent.tclose]),
       0) := by
  unfold tOuter tLast
  rw [h]
  cases hPri : c.matchPri o <;> cases hAlt : c.matchAlt o <;>
    simp [hPri, hAlt]

/-- Witness for C8: the success prompt arrives one beat late and the
last-ditch read rescues the login. -/
theorem c8_witness :
    tOuter cfgDefault 0 ⟨[RR.chunk "> "], "noise"⟩ =
      (TResult.ok ("noise" ++ "> "), ⟨[], "noise" ++ "> "⟩,
        [TEvent.twrite cfgDefault.telnetReturn, TEvent.tsleep 1] ++ [], 0) := by
  simpa using
    c8_last_ditch cfgDefault ⟨[RR.chunk "> "], "noise"⟩ "> " [] (by decide)

/-- Each round's inner loop enters at most `fuel` step bodies. -/
theorem tInner_steps_le (c : TCfg) :
    ∀ fuel st, (tInner c fuel st).2.2.2 ≤ fuel := by
  intro fuel
  induction fuel with
  | zero => intro st; simp [tInner]
  | succ n ih =>
    intro st
    unfold tInner
    rcases h : tStep c st with ⟨res, st1, ev⟩
    cases res <;> simp [h]
    have hn := ih st1
    rcases h2 : tInner c n st1 with ⟨r2, st2, ev2, s2⟩
    rw [h2] at hn
    simp at hn ⊢
    omega

/-- The outer loop with `rounds` rounds left enters at most
`rounds * int(max_loops / 3)` inner step bodies before the last-ditch
check. -/
theorem tOuter_steps_le (c : TCfg) :
    ∀ rounds st, (tOuter c rounds st).2.2.2 ≤ rounds * (c.maxLoops / 3) := by
  intro rounds
  induction rounds with
  | zero =>
    intro st
    unfold tOuter tLast
    rcases h : popR st.reads with ⟨r, rs⟩
    cases r <;> simp
    split <;> simp
  | succ n ih =>
    intro st
    unfold tOuter
    rcases h : tInner c (c.maxLoops / 3) st with ⟨res, st1, ev, s⟩
    have hs : s ≤ c.maxLoops / 3 := by
      have h2 := tInner_steps_le c (c.maxLoops / 3) st
      rw [h] at h2
      simpa using h2
    have hA : c.maxLoops / 3 ≤ (n + 1) * (c.maxLoops / 3) :=
      Nat.le_mul_of_pos_left _ n.succ_pos
    cases res <;> simp [h]
    · exact le_trans hs hA
    · exact le_trans hs hA
    · have hn := ih st1
      rcases h2 : tOuter c n st1 with ⟨r2, st2, ev2, s2⟩
      rw [h2] at hn
      simp at hn ⊢
      calc s + s2 ≤ c.maxLoops / 3 + n * (c.maxLoops / 3) :=
        Nat.add_le_add hs hn
      _ = (n + 1) * (c.maxLoops / 3) := by ring

/-- Claim C5 (confirmed): for every configuration (hence every `max_loops`
and every choice of patterns) and every channel behaviour, the telnet-style
automaton enters at most `3 * int(max_loops / 3)` read/react inner step
bodies before the final last-ditch check. -/
theorem c5_round_budget (c : TCfg) (reads : List RR) :
    (telnet_login c reads).2.2.2 ≤ 3 * (c.maxLoops / 3) := by
  unfold telnet_login
  have h := tOuter_steps_le c 3 ⟨reads, ""⟩
  rcases h2 : tOuter c 3 ⟨reads, ""⟩ with ⟨res, st, ev, s⟩
  rw [h2] at h
  simpa using h

/-- The events a `pollRead` contributes are at most one `prRead`, never a
password write. -/
theorem pollRead_no_pass (reads : List String) (nd : String) :
    (pollRead reads nd).2.2.countP isPassWrite = 0 ∧
    ∀ e ∈ (pollRead reads nd).2.2, isPassWrite e = false := by
  unfold pollRead
  by_cases h : nd = ""
  · rcases h2 : popS reads with ⟨o, rs⟩
    simp [h, h2, isPassWrite]
  · simp [h]

/-- Prepending events that are not password writes preserves both the
password-write count bound and "a password write is the last event". -/
theorem clean_append_pass (evs tr : List PEvent)
    (hevs : ∀ e ∈ evs, isPassWrite e = false)
    (h1 : tr.countP isPassWrite ≤ 1)
    (h2 : ∀ e ∈ tr, isPassWrite e = true → tr.getLast? = some e) :
    (evs ++ tr).countP isPassWrite ≤ 1 ∧
    (∀ e ∈ evs ++ tr, isPassWrite e = true →
      (evs ++ tr).getLast? = some e) := by
  constructor
  · rw [List.countP_append]
    have h0 : evs.countP isPassWrite = 0 :=
      List.countP_eq_zero.mpr (fun e he => by simp [hevs e he])
    omega
  · intro e he hp
    rcases List.mem_append.mp he with hm | hm
    · rw [hevs e hm] at hp
      exact absurd hp (by simp)
    · rw [List.getLast?_append, h2 e hm hp]
      rfl

/-- Claim C10 (confirmed): in any single poller call (any fuel, channel
script, buffered text and elapsed time), the password is written at most
once, and when a password write occurs it is the final event of the trace —
the loop `break`s immediately after it, with no further reads, writes or
sleeps. -/
theorem c10_password_write_is_final (u p ret : String) :
    ∀ fuel reads newData elapsed,
      (pollAux u p ret reads newData elapsed fuel).2.countP isPassWrite ≤ 1 ∧
      (∀ e ∈ (pollAux u p ret reads newData elapsed fuel).2,
        isPassWrite e = true →
        (pollAux u p ret reads newData elapsed fuel).2.getLast? = some e) := by
  intro fuel
  induction fuel with
  | zero =>
    intro reads newData elapsed
    simp [pollAux]
  | succ n ih =>
    intro reads newData elapsed
    unfold pollAux
    by_cases ht : elapsed < 200
    · rw [if_pos ht]
      rcases hr : pollRead reads newData with ⟨o, reads1, rev⟩
      have hrev := (pollRead_no_pass reads newData).2
      rw [hr] at hrev
      simp only at hrev
      dsimp only
      by_cases ho : o = ""
      · rcases hs : popS reads1 with ⟨nd2, reads2⟩
        simp only [ho, if_pos rfl, hs]
        by_cases hnd : nd2 = ""
        · simp only [hnd, if_pos rfl]
          refine clean_append_pass _ _ ?_ (ih reads2 "" (elapsed + 5)).1
            (ih reads2 "" (elapsed + 5)).2
          intro e he
          rcases List.mem_append.mp he with hm | hm
          · exact hrev e hm
          · simp at hm
            rcases hm with rfl | rfl | rfl <;> rfl
        · simp only [if_neg hnd]
          refine clean_append_pass _ _ ?_ (ih reads2 nd2 (elapsed + 5)).1
            (ih reads2 nd2 (elapsed + 5)).2
          intro e he
          rcases List.mem_append.mp he with hm | hm
          · exact hrev e hm
          · simp at hm
            rcases hm with rfl | rfl <;> rfl
      · rw [if_neg ho]
        by_cases hU : containsStr o "Login Name:" = true
        · rw [if_pos hU]
          refine clean_append_pass _ _ ?_ (ih reads1 "" (elapsed + 1)).1
            (ih reads1 "" (elapsed + 1)).2
          intro e he
          rcases List.mem_append.mp he with hm | hm
          · exact hrev e hm
          · simp at hm
            rcases hm with rfl | rfl <;> rfl
        · rw [if_neg hU]
          by_cases hP : containsStr o "Login Password:" = true
          · rw [if_pos hP]
            dsimp only
            constructor
            · rw [List.countP_append]
              have h0 : rev.countP isPassWrite = 0 :=
                List.countP_eq_zero.mpr (fun e he => by simp [hrev e he])
              simp [h0, isPassWrite]
            · intro e he hp
              rw [List.getLast?_concat]
              rcases List.mem_append.mp he with hm | hm
              · rw [hrev e hm] at hp
                exact absurd hp (by simp)
              · simp at hm
                rw [hm]
          · rw [if_neg hP]
            refine clean_append_pass _ _ ?_ (ih reads1 "" (elapsed + 1)).1
              (ih reads1 "" (elapsed + 1)).2
            intro e he
            rcases List.mem_append.mp he with hm | hm
            · exact hrev e hm
            · simp at hm
              rw [hm]
              rfl
    · rw [if_neg ht]
      simp

/-- Witness for C10: a channel that yields the password prompt; the
password write is the last event of the poller's trace. -/
theorem c10_witness :
    (special_login_handler "admin" "hunter2" "\r" ["Login Password:"]).2.getLast? =
      some (PEvent.pwPass ("hunter2" ++ "\r")) :=
  (c10_password_write_is_final "admin" "hunter2" "\r" 200
      ["Login Password:"] "" 0).2
    (PEvent.pwPass ("hunter2" ++ "\r")) (by decide) (by decide)

/-- Counterexample for C9: a chunk that contains both the username-prompt
text and the password-prompt text triggers only the username write — the
source's `elif` skips the password scan once the username scan matched, so
the password is never written on this channel at all. -/
theorem c9_counterexample :
    containsStr "Login Name: Login Password:" "Login Name:" = true ∧
    containsStr "Login Name: Login Password:" "Login Password:" = true ∧
    (special_login_handler "admin" "hunter2" "\r"
        ["Login Name: Login Password:"]).2.countP isUserWrite = 1 ∧
    (special_login_handler "admin" "hunter2" "\r"
        ["Login Name: Login Password:"]).2.countP isPassWrite = 0 := by
  decide

/-- Claim C9 (corrected): in an iteration whose output is non-empty, the
two scans are exclusive (`elif`), not both applied: when the chunk contains
the username-prompt text, the iteration writes the username and sleeps,
and performs no password scan and no password write on that chunk — the
password branch can only fire in an iteration whose chunk does not contain
the username-prompt text. -/
theorem c9_username_shadows_password (u p ret o newData : String)
    (reads reads1 : List String) (rev : List PEvent) (elapsed fuel : Nat)
    (ht : elapsed < 200)
    (hr : pollRead reads newData = (o, reads1, rev))
    (ho : ¬ o = "")
    (hU : containsStr o "Login Name:" = true) :
    pollAux u p ret reads newData elapsed (fuel + 1) =
      ((pollAux u p ret reads1 "" (elapsed + 1) fuel).1,
        (rev ++ [PEvent.pwUser (u ++ ret), PEvent.psleep 1]) ++
          (pollAux u p ret reads1 "" (elapsed + 1) fuel).2) := by
  conv_lhs => rw [pollAux]
  rw [if_pos ht, hr]
  dsimp only
  rw [if_neg ho, if_pos hU]

/-- Witness for C9's amended statement at a concrete both-prompts chunk. -/
theorem c9_witness :
    pollAux "admin" "hunter2" "\r" ["Login Name: Login Password:"] "" 0
        (199 + 1) =
      ((pollAux "admin" "hunter2" "\r" [] "" (0 + 1) 199).1,
        ([PEvent.prRead "Login Name: Login Password:"] ++
          [PEvent.pwUser ("admin" ++ "\r"), PEvent.psleep 1]) ++
          (pollAux "admin" "hunter2" "\r" [] "" (0 + 1) 199).2) :=
  c9_username_shadows_password "admin" "hunter2" "\r"
    "Login Name: Login Password:" "" ["Login Name: Login Password:"] []
    [PEvent.prRead "Login Name: Login Password:"] 0 199
    (by decide) (by decide) (by decide) (by decide)
